import Mathlib

/-!
Verification development for the Manufacturing dashboard scoring and alerting
pipeline (`lambda/lambda_predict_store.py`, `lambda_sns_only.py`).

Modelling conventions:
* Python floats for temperature/vibration inputs are modelled as exact
  rationals (`ℚ`); the decision thresholds and all inputs appearing in the
  properties are decimal literals, exactly representable in `ℚ`.
* The confidence value flows through `exp`, so it is modelled as a real
  number (`ℝ`) via `Real.exp`.
* The S3 latest-state store (`latest/{machine_id}.json`) is an association
  list from machine ids to JSON records; the history log
  (`data/{machine_id}/{timestamp}.json`) is a list of appended records.
* Fallible external calls (S3 put/get, SNS publish) are driven by explicit
  boolean success flags passed to the handler model; a raised exception is
  the `false` case.
-/

namespace ManufacturingDash

/-- Classification tier of a machine state.  `PENDING` only ever appears in
stored records (written on ingest); `predict` returns one of the other
three tiers. -/
inductive Classification where
  | PENDING
  | NORMAL
  | WARNING
  | FAULT_SOON
deriving DecidableEq

/-- `TEMP_CRITICAL` threshold from the source (`82.0`). -/
def TEMP_CRITICAL : ℚ := 82.0

/-- `VIB_CRITICAL` threshold from the source (`3.0`). -/
def VIB_CRITICAL : ℚ := 3.0

/-- `TEMP_WARN` threshold from the source (`74.0`). -/
def TEMP_WARN : ℚ := 74.0

/-- `VIB_WARN` threshold from the source (`2.3`). -/
def VIB_WARN : ℚ := 2.3

/-- `sigmoid(x) = 1 / (1 + exp(-max(-500, min(500, x))))` from the source. -/
noncomputable def sigmoid (x : ℝ) : ℝ :=
  1 / (1 + Real.exp (-(max (-500) (min 500 x))))

/-- `temp_score = (temp - 60) / 30` from `predict`. -/
def temp_score (temp : ℚ) : ℚ := (temp - 60) / 30

/-- `vib_score = (vib - 1.0) / 3.0` from `predict`. -/
def vib_score (vib : ℚ) : ℚ := (vib - 1.0) / 3.0

/-- `z = 2.5*temp_score + 3.0*vib_score + 0.8*temp_score*vib_score - 1.2`
from `predict`. -/
def zval (temp vib : ℚ) : ℚ :=
  2.5 * temp_score temp + 3.0 * vib_score vib
    + 0.8 * temp_score temp * vib_score vib - 1.2

/-- `confidence = sigmoid(z)`: the raw (pre-ladder) confidence of `predict`. -/
noncomputable def rawConfidence (temp vib : ℚ) : ℝ := sigmoid (zval temp vib)

/-- The scoring function `predict(temp, vib)` of the source: raw sigmoid
confidence followed by the threshold ladder with tier floors/ceiling. -/
noncomputable def predict (temp vib : ℚ) : Classification × ℝ :=
  if temp ≥ TEMP_CRITICAL ∨ vib ≥ VIB_CRITICAL then
    (Classification.FAULT_SOON, max (rawConfidence temp vib) 0.85)
  else if temp ≥ TEMP_WARN ∨ vib ≥ VIB_WARN then
    (Classification.WARNING, max (rawConfidence temp vib) 0.45)
  else
    (Classification.NORMAL, min (rawConfidence temp vib) 0.30)

/-! ## Spec-side scoring definition

These definitions follow the wording of the specification (section 4.1) for
the refinement claim C1; they are to be compared with `predict` above, which
is translated from the source. -/

/-- `clamp(x, lo, hi)` as used in the spec's sigmoid description. -/
def clamp (x lo hi : ℝ) : ℝ := max lo (min hi x)

/-- Spec sigmoid: `sigmoid(x) = 1 / (1 + exp(-clamp(x, -500, 500)))`. -/
noncomputable def sigmoidSpec (x : ℝ) : ℝ :=
  1 / (1 + Real.exp (-(clamp x (-500) 500)))

/-- Spec-side Scorer: normalize, combine with the interaction term, take the
sigmoid, then apply the decision ladder in priority order with first match
winning. -/
noncomputable def scoreSpec (temperature vibration : ℚ) : Classification × ℝ :=
  let ts : ℚ := (temperature - 60) / 30
  let vs : ℚ := (vibration - 1.0) / 3.0
  let z : ℚ := 2.5 * ts + 3.0 * vs + 0.8 * ts * vs - 1.2
  let confidence : ℝ := sigmoidSpec (z : ℝ)
  if temperature ≥ 82.0 ∨ vibration ≥ 3.0 then
    (Classification.FAULT_SOON, max confidence 0.85)
  else if temperature ≥ 74.0 ∨ vibration ≥ 2.3 then
    (Classification.WARNING, max confidence 0.45)
  else
    (Classification.NORMAL, min confidence 0.30)

/-! ## Basic sigmoid bounds -/

theorem sigmoid_pos (x : ℝ) : 0 < sigmoid x := by
  unfold sigmoid
  positivity

theorem sigmoid_lt_one (x : ℝ) : sigmoid x < 1 := by
  unfold sigmoid
  rw [div_lt_one (by positivity)]
  exact lt_add_of_pos_right 1 (Real.exp_pos _)

theorem rawConfidence_pos (t v : ℚ) : 0 < rawConfidence t v :=
  sigmoid_pos _

theorem rawConfidence_lt_one (t v : ℚ) : rawConfidence t v < 1 :=
  sigmoid_lt_one _

/-! ## Classification evaluation helpers -/

theorem predict_fst_critical {t v : ℚ}
    (h : t ≥ TEMP_CRITICAL ∨ v ≥ VIB_CRITICAL) :
    (predict t v).1 = Classification.FAULT_SOON := by
  unfold predict
  rw [if_pos h]

theorem predict_fst_warn {t v : ℚ}
    (hn : ¬(t ≥ TEMP_CRITICAL ∨ v ≥ VIB_CRITICAL))
    (h : t ≥ TEMP_WARN ∨ v ≥ VIB_WARN) :
    (predict t v).1 = Classification.WARNING := by
  unfold predict
  rw [if_neg hn, if_pos h]

theorem predict_fst_normal {t v : ℚ}
    (hn : ¬(t ≥ TEMP_CRITICAL ∨ v ≥ VIB_CRITICAL))
    (hw : ¬(t ≥ TEMP_WARN ∨ v ≥ VIB_WARN)) :
    (predict t v).1 = Classification.NORMAL := by
  unfold predict
  rw [if_neg hn, if_neg hw]

theorem predict_fst_84_31 : (predict 84.0 3.1).1 = Classification.FAULT_SOON :=
  predict_fst_critical (Or.inl (by norm_num [TEMP_CRITICAL]))

theorem predict_fst_76_25 : (predict 76.0 2.5).1 = Classification.WARNING :=
  predict_fst_warn
    (by
      rw [not_or]
      constructor <;> norm_num [TEMP_CRITICAL, VIB_CRITICAL])
    (Or.inl (by norm_num [TEMP_WARN]))

theorem predict_fst_65_14 : (predict 65.0 1.4).1 = Classification.NORMAL :=
  predict_fst_normal
    (by
      rw [not_or]
      constructor <;> norm_num [TEMP_CRITICAL, VIB_CRITICAL])
    (by
      rw [not_or]
      constructor <;> norm_num [TEMP_WARN, VIB_WARN])

/-! ## Claims about the Scorer -/

/-- C1: for every pair (temperature, vibration), `predict` computes
`temp_score = (temperature - 60) / 30`, `vib_score = (vibration - 1.0) / 3.0`,
`z = 2.5*temp_score + 3.0*vib_score + 0.8*temp_score*vib_score - 1.2`, raw
confidence `sigmoid(z)` with `sigmoid(x) = 1 / (1 + exp(-clamp(x, -500, 500)))`,
and applies the decision ladder in priority order with first match winning:
FAULT_SOON if `temperature >= 82.0` or `vibration >= 3.0`, else WARNING if
`temperature >= 74.0` or `vibration >= 2.3`, else NORMAL — i.e. the source
`predict` coincides with the spec-side Scorer `scoreSpec` everywhere. -/
theorem claim_C1_predict_matches_spec (temperature vibration : ℚ) :
    predict temperature vibration = scoreSpec temperature vibration := rfl

/-- C2: for every pair (temperature, vibration), `predict` is total (it is a
Lean function, so it returns without failing), its confidence lies in the
closed interval [0, 1], and its classification is one of NORMAL, WARNING,
FAULT_SOON. -/
theorem claim_C2_predict_total_and_bounded (t v : ℚ) :
    0 ≤ (predict t v).2 ∧ (predict t v).2 ≤ 1 ∧
      ((predict t v).1 = Classification.NORMAL ∨
        (predict t v).1 = Classification.WARNING ∨
        (predict t v).1 = Classification.FAULT_SOON) := by
  unfold predict
  split_ifs with h1 h2
  · exact ⟨le_max_of_le_right (by norm_num),
      max_le (rawConfidence_lt_one t v).le (by norm_num),
      Or.inr (Or.inr rfl)⟩
  · exact ⟨le_max_of_le_right (by norm_num),
      max_le (rawConfidence_lt_one t v).le (by norm_num),
      Or.inr (Or.inl rfl)⟩
  · exact ⟨le_min (rawConfidence_pos t v).le (by norm_num),
      (min_le_right _ _).trans (by norm_num),
      Or.inl rfl⟩

/-- C3: for every pair (temperature, vibration): a FAULT_SOON result has
confidence `max(raw, 0.85)`, hence ≥ 0.85; a WARNING result has confidence
`max(raw, 0.45)`, hence ≥ 0.45; a NORMAL result has confidence
`min(raw, 0.30)`, hence ≤ 0.30.  The adjustments are floors via `max`
(a raw confidence above the floor is preserved) and a ceiling via `min`. -/
theorem claim_C3_tier_floors_and_ceiling (t v : ℚ) :
    ((predict t v).1 = Classification.FAULT_SOON →
      (predict t v).2 = max (rawConfidence t v) 0.85 ∧
        0.85 ≤ (predict t v).2) ∧
    ((predict t v).1 = Classification.WARNING →
      (predict t v).2 = max (rawConfidence t v) 0.45 ∧
        0.45 ≤ (predict t v).2) ∧
    ((predict t v).1 = Classification.NORMAL →
      (predict t v).2 = min (rawConfidence t v) 0.30 ∧
        (predict t v).2 ≤ 0.30) := by
  unfold predict
  split_ifs with h1 h2
  · exact ⟨fun _ => ⟨rfl, le_max_right _ _⟩,
      fun h => absurd h (by decide), fun h => absurd h (by decide)⟩
  · exact ⟨fun h => absurd h (by decide),
      fun _ => ⟨rfl, le_max_right _ _⟩, fun h => absurd h (by decide)⟩
  · exact ⟨fun h => absurd h (by decide),
      fun h => absurd h (by decide), fun _ => ⟨rfl, min_le_right _ _⟩⟩

/-- Witness for C3: the three tier bounds realized at concrete inputs
(84.0, 3.1) → FAULT_SOON, (76.0, 2.5) → WARNING, (65.0, 1.4) → NORMAL. -/
theorem claim_C3_tier_floors_and_ceiling_witness :
    0.85 ≤ (predict 84.0 3.1).2 ∧ 0.45 ≤ (predict 76.0 2.5).2 ∧
      (predict 65.0 1.4).2 ≤ 0.30 :=
  ⟨((claim_C3_tier_floors_and_ceiling 84.0 3.1).1 predict_fst_84_31).2,
   ((claim_C3_tier_floors_and_ceiling 76.0 2.5).2.1 predict_fst_76_25).2,
   ((claim_C3_tier_floors_and_ceiling 65.0 1.4).2.2 predict_fst_65_14).2⟩

/-! ## State model of the store-variant Lambda (`lambda_predict_store.py`)

A stored JSON record.  The source writes the keys
`machine_id, temperature, vibration, prediction, timestamp` on ingest and
adds `confidence` on the query write-back (`Option` models an absent key).
`last_alert_sent_at` is an optional extra key a JSON object may carry
(the spec's alert-suppression timestamp); no writer in the source ever sets
it. -/
structure Record where
  machine_id : String
  temperature : ℚ
  vibration : ℚ
  prediction : Classification
  confidence : Option ℝ
  timestamp : Nat
  last_alert_sent_at : Option Nat

/-- The S3 bucket: the append-only history objects
(`data/{machine_id}/{timestamp}.json`) and the latest-state objects
(`latest/{machine_id}.json`), keyed by machine id. -/
structure S3State where
  history : List Record
  latest : List (String × Record)

/-- Overwrite (or create) the `latest/{machine_id}.json` object. -/
def putLatest (l : List (String × Record)) (k : String) (r : Record) :
    List (String × Record) :=
  (k, r) :: l.filter (fun p => p.1 ≠ k)

/-- `round(x, 2)` on the confidence before the write-back and in response
bodies.  (Python rounds half-to-even; no property in scope touches a tie, so
the standard `round` is used.) -/
noncomputable def round2 (x : ℝ) : ℝ := (round (x * 100) : ℤ) / 100

/-- `store_to_s3(machine_id, temperature, vibration, prediction='PENDING')`:
build the record, put the history object, then put the latest object.  The
two puts run in one `try` block in sequence, so a history failure raises
before the latest put; `historyOk`/`latestOk` are the success flags of the
two puts and `Except.error` models the raised exception reaching the
caller.  The returned state holds whatever writes completed before the
failure. -/
def store_to_s3 (historyOk latestOk : Bool) (st : S3State)
    (machine_id : String) (temperature vibration : ℚ) (now : Nat) :
    S3State × Except Unit Record :=
  let data : Record :=
    { machine_id := machine_id, temperature := temperature,
      vibration := vibration, prediction := Classification.PENDING,
      confidence := none, timestamp := now, last_alert_sent_at := none }
  if historyOk then
    let st1 : S3State := { st with history := st.history ++ [data] }
    if latestOk then
      ({ st1 with latest := putLatest st1.latest machine_id data },
        Except.ok data)
    else (st1, Except.error ())
  else (st, Except.error ())

/-- Response of the POST branch of `lambda_handler` (ingest path): the
status code and the body's message / error text. -/
structure PostResponse where
  statusCode : Nat
  message : String
deriving DecidableEq

/-- POST branch of `lambda_handler` (input already parsed, per the spec's
boundary contract): store via `store_to_s3`; on success return 200, on a
storage exception return 500 with a storage error. -/
def postHandler (historyOk latestOk : Bool) (st : S3State)
    (machine_id : String) (temperature vibration : ℚ) (now : Nat) :
    PostResponse × S3State :=
  match store_to_s3 historyOk latestOk st machine_id temperature vibration now with
  | (st1, Except.ok _) =>
      ({ statusCode := 200, message := "Data stored successfully" }, st1)
  | (st1, Except.error _) =>
      ({ statusCode := 500, message := "Storage error" }, st1)

/-- `get_latest_from_s3(machine_id)`: returns the parsed record, and `None`
both when the key is absent (`NoSuchKey`) and when any other exception is
raised during the read (`readOk = false`). -/
def get_latest_from_s3 (readOk : Bool) (st : S3State) (machine_id : String) :
    Option Record :=
  if readOk then st.latest.lookup machine_id else none

/-- One SNS publish attempt made by the query path; `delivered` records
whether the publish succeeded. -/
structure Alert where
  machine_id : String
  temperature : ℚ
  vibration : ℚ
  classification : Classification
  confidence : ℝ
  delivered : Bool

/-- Body of a GET response: the success JSON or an error JSON. -/
inductive GetBody where
  | success (machine_id : String) (temperature vibration : ℚ)
      (prediction : Classification) (confidence : ℝ) (timestamp : Nat)
  | failure (error : String)

/-- A GET response: status code and body. -/
structure GetResponse where
  statusCode : Nat
  body : GetBody

/-- The prediction field of a successful GET body, if any. -/
def GetResponse.predictionOf : GetResponse → Option Classification
  | ⟨_, GetBody.success _ _ _ p _ _⟩ => some p
  | _ => none

/-- The confidence field of a successful GET body, if any. -/
def GetResponse.confidenceOf : GetResponse → Option ℝ
  | ⟨_, GetBody.success _ _ _ _ c _⟩ => some c
  | _ => none

/-- GET branch of `lambda_handler` (query path): fetch the latest record
(404 if absent), run `predict` on the stored temperature/vibration, write
the resolved prediction and rounded confidence back (best-effort: a failed
put is caught and only logged, `writebackOk = false`), publish one SNS alert
iff the prediction is FAULT_SOON (a failed publish is caught and only
logged, `snsOk = false`), and return 200 with the resolved fields.  Returns
the response, the resulting bucket state, and the list of SNS publish
attempts made during the request. -/
noncomputable def queryHandler (readOk writebackOk snsOk : Bool)
    (st : S3State) (machine_id : String) :
    GetResponse × S3State × List Alert :=
  match get_latest_from_s3 readOk st machine_id with
  | none => (⟨404, GetBody.failure "No data found for machine"⟩, st, [])
  | some data =>
      let temperature := data.temperature
      let vibration := data.vibration
      let pc := predict temperature vibration
      let updated : Record :=
        { data with prediction := pc.1, confidence := some (round2 pc.2) }
      let st1 : S3State :=
        if writebackOk then
          { st with latest := putLatest st.latest machine_id updated }
        else st
      let alerts : List Alert :=
        if pc.1 = Classification.FAULT_SOON then
          [{ machine_id := machine_id, temperature := temperature,
             vibration := vibration, classification := pc.1,
             confidence := pc.2, delivered := snsOk }]
        else []
      (⟨200, GetBody.success machine_id temperature vibration pc.1
          (round2 pc.2) data.timestamp⟩, st1, alerts)

/-! ## Model of the SNS-only Lambda (`lambda_sns_only.py`) -/

/-- `send_sns_alert(...)`: publish and return the message id; on an SNS
exception the function logs and re-raises (`raise`), modelled as
`Except.error`. -/
def send_sns_alert (snsOk : Bool) (_machine_id : String)
    (_temperature _vibration : ℚ) (_prediction : Classification) :
    Except Unit String :=
  if snsOk then Except.ok "MessageId" else Except.error ()

/-- Body of an SNS-only response: the success JSON (with the alert-delivery
fields `alert_sent` and `message_id`) or an error JSON. -/
inductive SnsBody where
  | success (machine_id : String) (temperature vibration : ℚ)
      (prediction : Classification) (confidence : ℝ)
      (alert_sent : Bool) (message_id : Option String)
  | failure (error : String)

/-- An SNS-only Lambda response: status code and body. -/
structure SnsResponse where
  statusCode : Nat
  body : SnsBody

/-- `lambda_handler` of `lambda_sns_only.py` (input already parsed): run
`predict`, call `send_sns_alert` iff the prediction is WARNING or
FAULT_SOON; the re-raised SNS exception is caught only by the generic
handler, which returns 500 with the error text and no prediction. -/
noncomputable def snsOnlyHandler (snsOk : Bool) (machine_id : String)
    (temperature vibration : ℚ) : SnsResponse :=
  let pc := predict temperature vibration
  if pc.1 = Classification.WARNING ∨ pc.1 = Classification.FAULT_SOON then
    match send_sns_alert snsOk machine_id temperature vibration pc.1 with
    | Except.ok message_id =>
        ⟨200, SnsBody.success machine_id temperature vibration pc.1
          (round2 pc.2) true (some message_id)⟩
    | Except.error _ => ⟨500, SnsBody.failure "SNS error"⟩
  else
    ⟨200, SnsBody.success machine_id temperature vibration pc.1
      (round2 pc.2) false none⟩

/-! ## Store lemmas -/

theorem lookup_putLatest_self (l : List (String × Record)) (k : String)
    (r : Record) : (putLatest l k r).lookup k = some r := by
  simp [putLatest, List.lookup]

/-- The record the query path writes back: the stored record with the
resolved prediction and rounded confidence, all other keys unchanged. -/
noncomputable def resolvedRecord (data : Record) : Record :=
  { data with
    prediction := (predict data.temperature data.vibration).1,
    confidence := some (round2 (predict data.temperature data.vibration).2) }

/-- Evaluation of the query path when the latest-state read succeeds and
finds a record. -/
theorem queryHandler_run {st : S3State} {mid : String} {data : Record}
    (wb sns : Bool) (h : st.latest.lookup mid = some data) :
    queryHandler true wb sns st mid =
      (⟨200, GetBody.success mid data.temperature data.vibration
          (predict data.temperature data.vibration).1
          (round2 (predict data.temperature data.vibration).2) data.timestamp⟩,
        (if wb then
          { st with latest := putLatest st.latest mid (resolvedRecord data) }
          else st),
        if (predict data.temperature data.vibration).1
            = Classification.FAULT_SOON then
          [{ machine_id := mid, temperature := data.temperature,
             vibration := data.vibration,
             classification := (predict data.temperature data.vibration).1,
             confidence := (predict data.temperature data.vibration).2,
             delivered := sns }]
        else []) := by
  simp [queryHandler, get_latest_from_s3, h, resolvedRecord]

/-! ## Concrete fixtures used in claims and witnesses -/

/-- The record ingest writes for `(M-202, 84.0, 3.1)` at time 0. -/
def rec84 : Record :=
  ⟨"M-202", 84.0, 3.1, Classification.PENDING, none, 0, none⟩

/-- The record ingest writes for `(M-202, 76.0, 2.5)` at time 0. -/
def rec76 : Record :=
  ⟨"M-202", 76.0, 2.5, Classification.PENDING, none, 0, none⟩

/-- A pending record for `(M-202, 65.0, 1.4)` at time 0. -/
def rec65 : Record :=
  ⟨"M-202", 65.0, 1.4, Classification.PENDING, none, 0, none⟩

/-- A bucket whose latest state for M-202 is `rec65`. -/
def stW65 : S3State := ⟨[], [("M-202", rec65)]⟩

/-- A prior machine state carrying a `last_alert_sent_at` value. -/
def recPrior : Record :=
  ⟨"M-202", 70.0, 2.0, Classification.NORMAL, none, 3, some 5⟩

/-- A bucket whose latest state for M-202 is `recPrior`. -/
def stPrior : S3State := ⟨[], [("M-202", recPrior)]⟩

/-! ## Claims about the StateCoordinator -/

/-- C4: under the store-variant handler (which alerts only on FAULT_SOON,
the spec's default Variant A): after `ingest(M-202, 84.0, 3.1)`, a
`query(M-202)` makes exactly one SNS publish, with classification
FAULT_SOON, and resolves FAULT_SOON; after `ingest(M-202, 76.0, 2.5)`, a
`query(M-202)` resolves WARNING and makes zero SNS publishes. -/
theorem claim_C4_alert_gating_variant_A :
    ((queryHandler true true true
        (postHandler true true ⟨[], []⟩ "M-202" 84.0 3.1 0).2 "M-202").2.2.map
          Alert.classification = [Classification.FAULT_SOON] ∧
      (queryHandler true true true
        (postHandler true true ⟨[], []⟩ "M-202" 84.0 3.1 0).2
          "M-202").1.predictionOf = some Classification.FAULT_SOON) ∧
    ((queryHandler true true true
        (postHandler true true ⟨[], []⟩ "M-202" 76.0 2.5 0).2
          "M-202").1.predictionOf = some Classification.WARNING ∧
      (queryHandler true true true
        (postHandler true true ⟨[], []⟩ "M-202" 76.0 2.5 0).2 "M-202").2.2
        = []) := by
  have h84 : ((postHandler true true ⟨[], []⟩ "M-202" 84.0 3.1 0).2).latest.lookup
      "M-202" = some rec84 := rfl
  have h76 : ((postHandler true true ⟨[], []⟩ "M-202" 76.0 2.5 0).2).latest.lookup
      "M-202" = some rec76 := rfl
  rw [queryHandler_run true true h84, queryHandler_run true true h76]
  refine ⟨⟨?_, ?_⟩, ?_, ?_⟩ <;>
    simp [rec84, rec76, predict_fst_84_31, predict_fst_76_25,
      GetResponse.predictionOf]

/-- Counterexample to C5: in the SNS-only handler, with an alert-worthy
reading (84.0, 3.1) and a failing SNS publish, the classification is
resolved (FAULT_SOON) but the handler returns 500 with an error body — the
resolved classification and confidence are NOT returned to the caller, so
the Alerter failure is fatal to the classification result there. -/
theorem claim_C5_counterexample :
    (snsOnlyHandler false "M-202" 84.0 3.1).statusCode = 500 ∧
      (snsOnlyHandler false "M-202" 84.0 3.1).body
        = SnsBody.failure "SNS error" := by
  constructor <;>
    simp [snsOnlyHandler, send_sns_alert, predict_fst_84_31]

/-- C5 as amended: in the store-variant handler the SNS failure is caught,
the response is identical to the success case (status 200, resolved
classification and confidence in the body — though no field reports that
the alert was not sent); in the SNS-only handler an SNS failure on an
alert-worthy reading propagates and the handler returns 500 with an error
body instead of the classification. -/
theorem claim_C5_amended_alert_failure (wb : Bool) (st : S3State)
    (mid mid2 : String) (data : Record) (t v : ℚ)
    (h : st.latest.lookup mid = some data)
    (halert : (predict t v).1 = Classification.WARNING ∨
      (predict t v).1 = Classification.FAULT_SOON) :
    (queryHandler true wb false st mid).1 = (queryHandler true wb true st mid).1 ∧
    (queryHandler true wb false st mid).1.statusCode = 200 ∧
    (queryHandler true wb false st mid).1.predictionOf
      = some (predict data.temperature data.vibration).1 ∧
    snsOnlyHandler false mid2 t v = ⟨500, SnsBody.failure "SNS error"⟩ := by
  rw [queryHandler_run wb false h, queryHandler_run wb true h]
  refine ⟨rfl, rfl, rfl, ?_⟩
  simp only [snsOnlyHandler, if_pos halert]
  rfl

/-- Witness for C5 (amended), at the fixture bucket holding (84.0, 3.1) for
M-202 and the same reading fed to the SNS-only handler. -/
theorem claim_C5_amended_alert_failure_witness :
    (queryHandler true true false ⟨[], [("M-202", rec84)]⟩ "M-202").1.statusCode
        = 200 ∧
      snsOnlyHandler false "M-202" 84.0 3.1
        = ⟨500, SnsBody.failure "SNS error"⟩ :=
  ⟨(claim_C5_amended_alert_failure true ⟨[], [("M-202", rec84)]⟩ "M-202"
      "M-202" rec84 84.0 3.1 rfl (Or.inr predict_fst_84_31)).2.1,
   (claim_C5_amended_alert_failure true ⟨[], [("M-202", rec84)]⟩ "M-202"
      "M-202" rec84 84.0 3.1 rfl (Or.inr predict_fst_84_31)).2.2.2⟩

/-- Counterexample to C6: with a failing history append on an empty bucket,
ingest of (M-202, 84.0, 3.1) returns the 500 storage error and the
latest-state record for M-202 is NOT written (the history put runs first
and its exception aborts `store_to_s3` before the latest put). -/
theorem claim_C6_counterexample :
    (postHandler false true ⟨[], []⟩ "M-202" 84.0 3.1 0).1
        = ⟨500, "Storage error"⟩ ∧
      ((postHandler false true ⟨[], []⟩ "M-202" 84.0 3.1 0).2).latest.lookup
        "M-202" = none :=
  ⟨rfl, rfl⟩

/-- C6 as amended: a failure to append the Reading to the historical log is
surfaced as a storage error (500) and aborts the ingest before the
latest-state write: the bucket — latest-state record included — is left
exactly as it was. -/
theorem claim_C6_amended_history_failure_blocks (latestOk : Bool)
    (st : S3State) (mid : String) (t v : ℚ) (now : Nat) :
    postHandler false latestOk st mid t v now = (⟨500, "Storage error"⟩, st) :=
  rfl

/-- C7: for every query on a machine with stored state, a failing
write-back of the resolved record leaves the response unchanged: status
200 with the resolved classification and rounded confidence (the
write-back is best-effort; its exception is caught and only logged). -/
theorem claim_C7_writeback_failure_swallowed (sns : Bool) (st : S3State)
    (mid : String) (data : Record) (h : st.latest.lookup mid = some data) :
    (queryHandler true false sns st mid).1 = (queryHandler true true sns st mid).1 ∧
    (queryHandler true false sns st mid).1.statusCode = 200 ∧
    (queryHandler true false sns st mid).1.predictionOf
      = some (predict data.temperature data.vibration).1 ∧
    (queryHandler true false sns st mid).1.confidenceOf
      = some (round2 (predict data.temperature data.vibration).2) := by
  rw [queryHandler_run false sns h, queryHandler_run true sns h]
  exact ⟨rfl, rfl, rfl, rfl⟩

/-- Witness for C7, at the fixture bucket holding (65.0, 1.4) for M-202. -/
theorem claim_C7_writeback_failure_swallowed_witness :
    (queryHandler true false true stW65 "M-202").1.statusCode = 200 ∧
      (queryHandler true false true stW65 "M-202").1
        = (queryHandler true true true stW65 "M-202").1 :=
  ⟨(claim_C7_writeback_failure_swallowed true stW65 "M-202" rec65 rfl).2.1,
   (claim_C7_writeback_failure_swallowed true stW65 "M-202" rec65 rfl).1⟩

/-- C8: two consecutive queries on a machine with stored state, with no
intervening ingest, return identical classification and identical
confidence, whatever the write-back and SNS outcomes of each call: the
write-back changes only the prediction/confidence keys and the Scorer is a
pure function of the unchanged temperature and vibration. -/
theorem claim_C8_query_idempotent (wb1 sns1 wb2 sns2 : Bool) (st : S3State)
    (mid : String) (data : Record) (h : st.latest.lookup mid = some data) :
    (queryHandler true wb2 sns2
        (queryHandler true wb1 sns1 st mid).2.1 mid).1.predictionOf
      = (queryHandler true wb1 sns1 st mid).1.predictionOf ∧
    (queryHandler true wb2 sns2
        (queryHandler true wb1 sns1 st mid).2.1 mid).1.confidenceOf
      = (queryHandler true wb1 sns1 st mid).1.confidenceOf := by
  rw [queryHandler_run wb1 sns1 h]
  cases wb1 with
  | false =>
      simp only [Bool.false_eq_true, if_false]
      rw [queryHandler_run wb2 sns2 h]
      exact ⟨rfl, rfl⟩
  | true =>
      simp only [if_true]
      have h2 : (putLatest st.latest mid (resolvedRecord data)).lookup mid
          = some (resolvedRecord data) := lookup_putLatest_self _ _ _
      rw [queryHandler_run wb2 sns2 h2]
      exact ⟨rfl, rfl⟩

/-- Witness for C8, at the fixture bucket holding (65.0, 1.4) for M-202. -/
theorem claim_C8_query_idempotent_witness :
    (queryHandler true true true
        (queryHandler true true true stW65 "M-202").2.1 "M-202").1.predictionOf
      = (queryHandler true true true stW65 "M-202").1.predictionOf ∧
    (queryHandler true true true
        (queryHandler true true true stW65 "M-202").2.1 "M-202").1.confidenceOf
      = (queryHandler true true true stW65 "M-202").1.confidenceOf :=
  claim_C8_query_idempotent true true true true stW65 "M-202" rec65 rfl

/-- Counterexample to C9: a prior M-202 state carrying
`last_alert_sent_at = 5` is overwritten by an ingest with a fresh record
whose `last_alert_sent_at` is absent — the prior value is NOT preserved
(the ingest path writes a brand-new JSON object and reads nothing from the
prior state). -/
theorem claim_C9_counterexample :
    recPrior.last_alert_sent_at = some 5 ∧
    stPrior.latest.lookup "M-202" = some recPrior ∧
    (((postHandler true true stPrior "M-202" 84.0 3.1 7).2).latest.lookup
        "M-202").map Record.last_alert_sent_at = some none :=
  ⟨rfl, rfl, rfl⟩

/-- C9 as amended: every successful ingest overwrites the latest-state
record with a fresh record holding the new temperature, vibration and
observed_at, classification PENDING and confidence cleared; nothing from
any prior state survives — in particular `last_alert_sent_at` is absent
after the overwrite rather than preserved. -/
theorem claim_C9_amended_ingest_overwrites (st : S3State) (mid : String)
    (t v : ℚ) (now : Nat) :
    ((postHandler true true st mid t v now).2).latest.lookup mid =
      some { machine_id := mid, temperature := t, vibration := v,
             prediction := Classification.PENDING, confidence := none,
             timestamp := now, last_alert_sent_at := none } := by
  simp [postHandler, store_to_s3, lookup_putLatest_self]

/-- C10: on the query path, a failing latest-state read is mapped to the
absent result: the caller gets the same 404 "No data found for machine"
response as for a machine that never ingested, the bucket is untouched,
and no SNS publish happens in either case. -/
theorem claim_C10_read_failure_as_absent (wb sns : Bool) (st st2 : S3State)
    (mid : String) (h : st2.latest.lookup mid = none) :
    queryHandler false wb sns st mid
        = (⟨404, GetBody.failure "No data found for machine"⟩, st, []) ∧
    queryHandler true wb sns st2 mid
        = (⟨404, GetBody.failure "No data found for machine"⟩, st2, []) := by
  constructor
  · rfl
  · simp [queryHandler, get_latest_from_s3, h]

/-- Witness for C10: a read failure on a bucket that does hold M-202 data,
and a successful read on an empty bucket, produce the same 404 result. -/
theorem claim_C10_read_failure_as_absent_witness :
    queryHandler false true true stPrior "M-202"
        = (⟨404, GetBody.failure "No data found for machine"⟩, stPrior, []) ∧
    queryHandler true true true ⟨[], []⟩ "M-202"
        = (⟨404, GetBody.failure "No data found for machine"⟩, ⟨[], []⟩, []) :=
  claim_C10_read_failure_as_absent true true stPrior ⟨[], []⟩ "M-202" rfl

end ManufacturingDash
